import Mathlib

/-!
Verification development for the ReBAC sample application
(Amazon Verified Permissions + Amazon Neptune).

The embedding below models, from the Python source:
  * `permissions.py`  : dynamic attribute values (`attribute_value`,
    `entity`, `entity_set`) and the two decision-request builders
    (`permissions_check_token_directory`, `permissions_check_token_video`);
  * `database.py`     : the property graph, the Gremlin
    `union(in OWNER, repeat(out MEMBEROF).until(name = petVideosDirectory).in OWNER)`
    traversals of `query_directory_info` / `query_video_info`, with the
    repeat/until loop modelled as a fuel-indexed frontier walk
    (no `emit()` modulator, so only vertices satisfying the `until`
    predicate are emitted; traversers with no outgoing edge die silently);
  * `main.py`         : the API handler's control flow (action resolution,
    auth decode, name extraction from body/query string, existence check,
    id-token check, resolution under a JWT-only try/except, and the
    decision dispatch whose `except Exception` turns any failure into a
    401 access-denied response).

Machine integers do not occur; ids and names are opaque strings.
External effects (graph store, policy engine) are passed as explicit
function parameters returning `Except`, modelling Python exceptions.
-/

namespace AvpRebac

/-- Python-style dynamic value, covering every shape that can reach
`attribute_value` in `permissions.py` (strings, booleans, lists, sets,
dicts) plus representative non-convertible shapes (int, float, None). -/
inductive PyVal where
  | pstr : String → PyVal
  | pbool : Bool → PyVal
  | pint : Int → PyVal
  | pfloat : PyVal
  | pnone : PyVal
  | plist : List PyVal → PyVal
  | pset : List PyVal → PyVal
  | pdict : List (String × PyVal) → PyVal

/-- `permissions.entity`: a typed entity identifier dict
`{"entityType": "PetVideosApp::<kind>", "entityId": <id>}`. -/
def entity (entity_type : String) (entity_id : String) : PyVal :=
  .pdict [("entityType", .pstr ("PetVideosApp::" ++ entity_type)),
          ("entityId", .pstr entity_id)]

/-- `permissions.entity_set`: a Python list of typed entity identifiers. -/
def entity_set (entity_type : String) (entity_ids : List String) : PyVal :=
  .plist (entity_ids.map (entity entity_type))

mutual

/-- `permissions.attribute_value`: tags a dynamic value with its
Verified Permissions attribute shape, raising `ValueError` (modelled as
`Except.error`) on any value that is not a str, bool, list, set or dict.
The isinstance chain tests `str` before `bool`; since Python's `bool` is
not a `str` subtype the two cases are disjoint, as the distinct
constructors here reflect. -/
def attribute_value : PyVal → Except String PyVal
  | .pstr s => .ok (.pdict [("string", .pstr s)])
  | .pbool b => .ok (.pdict [("boolean", .pbool b)])
  | .plist l => (attribute_value_list l).map (fun cs => .pdict [("set", .plist cs)])
  | .pset l => (attribute_value_list l).map (fun cs => .pdict [("set", .plist cs)])
  | .pdict d => .ok (.pdict [("entityIdentifier", .pdict d)])
  | .pint _ => .error "Unknown attribute value type: <class 'int'>"
  | .pfloat => .error "Unknown attribute value type: <class 'float'>"
  | .pnone => .error "Unknown attribute value type: <class 'NoneType'>"

/-- Elementwise conversion used by the list/set branch of
`attribute_value`; stops at the first failing element, as the Python
list comprehension raises there. -/
def attribute_value_list : List PyVal → Except String (List PyVal)
  | [] => .ok []
  | v :: vs => do
      let c ← attribute_value v
      let cs ← attribute_value_list vs
      .ok (c :: cs)

end

/-- `classtype.Directory` as consumed by the permissions layer
(the opaque `directory_vertex` handle is omitted). -/
structure Directory where
  directory_id : String
  directory_name : String
  owner_id : List String
  owner_name : List String
  parents_id : List String
  isPublic : Bool
deriving DecidableEq, Repr

/-- `classtype.Video` as consumed by the permissions layer
(the opaque `video_vertex` handle is omitted). -/
structure Video where
  video_id : String
  video_name : String
  owner_id : List String
  owner_name : List String
  parents_id : List String
  isPublic : Bool
deriving DecidableEq, Repr

/-- One determining-policy reference of a Verified Permissions reply. -/
structure PolicyRef where
  policyId : String
deriving DecidableEq, Repr

/-- The reply of `avp.is_authorized_with_token`. -/
structure AVPResponse where
  decision : String
  determiningPolicies : List PolicyRef
deriving DecidableEq, Repr

/-- The keyword arguments assembled for `avp.is_authorized_with_token`;
`entities = none` models the `entities` key being absent from `args`. -/
structure AVPArgs where
  policyStoreId : String
  identityToken : String
  action : PyVal
  resource : PyVal
  entities : Option PyVal

/-- Decidable equality of `Except` results, used to evaluate the
handler on closed inputs. -/
instance exceptDecEq {ε α : Type} [DecidableEq ε] [DecidableEq α] :
    DecidableEq (Except ε α)
  | .ok a, .ok b =>
      if h : a = b then .isTrue (by rw [h]) else .isFalse (by simp [h])
  | .ok _, .error _ => .isFalse (by simp)
  | .error _, .ok _ => .isFalse (by simp)
  | .error a, .error b =>
      if h : a = b then .isTrue (by rw [h]) else .isFalse (by simp [h])

/-- The dict returned by both permissions-check functions. -/
structure DecisionResult where
  decision : String
  determining_policies : List PolicyRef
deriving DecidableEq, Repr

/-- The entities block built by `permissions_check_token_directory` when
the resolved directory exists: one entity whose attributes are `owner`
(through `attribute_value` over `entity_set`) and `isPublic`, and whose
parents are the `parents_id` list as typed directory identifiers. -/
def directory_entities (video_dir : Directory) : Except String PyVal := do
  let ownerAttr ← attribute_value (entity_set "User" video_dir.owner_id)
  let pubAttr ← attribute_value (.pbool video_dir.isPublic)
  .ok (.pdict [("entityList", .plist [
    .pdict [("identifier", entity "Directory" video_dir.directory_id),
            ("attributes", .pdict [("owner", ownerAttr), ("isPublic", pubAttr)]),
            ("parents", entity_set "Directory" video_dir.parents_id)]])])

/-- The entities block built by `permissions_check_token_video` when the
resolved video exists. -/
def video_entities (video : Video) : Except String PyVal := do
  let ownerAttr ← attribute_value (entity_set "User" video.owner_id)
  let pubAttr ← attribute_value (.pbool video.isPublic)
  .ok (.pdict [("entityList", .plist [
    .pdict [("identifier", entity "Video" video.video_id),
            ("attributes", .pdict [("owner", ownerAttr), ("isPublic", pubAttr)]),
            ("parents", entity_set "Directory" video.parents_id)]])])

/-- Request assembly of `permissions_check_token_directory`: the resource
starts as the fixed application placeholder and is replaced by the typed
directory identifier exactly when a resolved directory is present, in
which case the entities block is attached. -/
def build_directory_args (policyStoreId token action : String)
    (video_dir : Option Directory) : Except String AVPArgs := do
  let action_entity : PyVal :=
    .pdict [("actionType", .pstr "PetVideosApp::Action"), ("actionId", .pstr action)]
  match video_dir with
  | none =>
      .ok { policyStoreId := policyStoreId, identityToken := token,
            action := action_entity, resource := entity "Application" "PetVideosApp",
            entities := none }
  | some d => do
      let ents ← directory_entities d
      .ok { policyStoreId := policyStoreId, identityToken := token,
            action := action_entity, resource := entity "Directory" d.directory_id,
            entities := some ents }

/-- Request assembly of `permissions_check_token_video`. -/
def build_video_args (policyStoreId token action : String)
    (video : Option Video) : Except String AVPArgs := do
  let action_entity : PyVal :=
    .pdict [("actionType", .pstr "PetVideosApp::Action"), ("actionId", .pstr action)]
  match video with
  | none =>
      .ok { policyStoreId := policyStoreId, identityToken := token,
            action := action_entity, resource := entity "Application" "PetVideosApp",
            entities := none }
  | some v => do
      let ents ← video_entities v
      .ok { policyStoreId := policyStoreId, identityToken := token,
            action := action_entity, resource := entity "Video" v.video_id,
            entities := some ents }

/-- `permissions.permissions_check_token_directory`, with the Verified
Permissions client passed as an explicit fallible oracle. -/
def permissions_check_token_directory (policyStoreId token action : String)
    (video_dir : Option Directory)
    (avp : AVPArgs → Except String AVPResponse) : Except String DecisionResult := do
  let args ← build_directory_args policyStoreId token action video_dir
  let resp ← avp args
  .ok { decision := resp.decision, determining_policies := resp.determiningPolicies }

/-- `permissions.permissions_check_token_video`. -/
def permissions_check_token_video (policyStoreId token action : String)
    (video : Option Video)
    (avp : AVPArgs → Except String AVPResponse) : Except String DecisionResult := do
  let args ← build_video_args policyStoreId token action video
  let resp ← avp args
  .ok { decision := resp.decision, determining_policies := resp.determiningPolicies }

/-! ### Property graph and the Gremlin traversals of `database.py` -/

/-- A Neptune vertex: its id property (`userId` / `directoryId` /
`videoId`, used interchangeably with the vertex handle since the
queries key every lookup on it), its label, its `name` property and its
`isPublic` property. -/
structure GVertex where
  vid : String
  label : String
  name : String
  isPublic : Bool
deriving DecidableEq, Repr

/-- The property graph: vertices, `OWNER` edges (user to resource) and
`MEMBEROF` edges (resource to parent directory), each edge a pair of
vertex ids in source-to-target order. -/
structure GGraph where
  vertices : List GVertex
  owner : List (String × String)
  memberOf : List (String × String)
deriving DecidableEq, Repr

/-- `g.V().hasLabel(label).has('name', name)`: first vertex with the
given label and name. -/
def findVertexByName (G : GGraph) (label name : String) : Option GVertex :=
  G.vertices.find? (fun v => v.label == label && v.name == name)

/-- One-hop `out('MEMBEROF')` from a vertex id, in edge-list order. -/
def outMemberOf (G : GGraph) (v : String) : List String :=
  (G.memberOf.filter (fun e => e.1 == v)).map (fun e => e.2)

/-- One-hop `in('OWNER')` at a vertex id: the users owning it. -/
def inOwner (G : GGraph) (v : String) : List String :=
  (G.owner.filter (fun e => e.2 == v)).map (fun e => e.1)

/-- Vertex lookup by id. -/
def vertexById (G : GGraph) (v : String) : Option GVertex :=
  G.vertices.find? (fun w => w.vid == v)

/-- The `name` property of a vertex id (empty if absent). -/
def nameOf (G : GGraph) (v : String) : String :=
  ((vertexById G v).map GVertex.name).getD ""

/-- The `until(__.has('name', 'petVideosDirectory'))` predicate: the
statically named root marker of both traversals. -/
def isRootDir (G : GGraph) (v : String) : Bool :=
  nameOf G v == "petVideosDirectory"

/-- One iteration of the `repeat(__.out('MEMBEROF'))` loop on a frontier
of traversers: step every traverser one `MEMBEROF` hop and keep the ones
that must keep looping (those not at the root marker; traversers with no
outgoing edge disappear). -/
def frontierStep (G : GGraph) (frontier : List String) : List String :=
  (frontier.flatMap (outMemberOf G)).filter (fun v => !(isRootDir G v))

/-- The vertices emitted by
`repeat(__.out('MEMBEROF')).until(__.has('name', 'petVideosDirectory'))`
within `fuel` loop iterations, starting from a frontier of traversers.
The `until` modulator follows `repeat`, so the predicate is tested only
after each hop (do-while), and with no `emit()` modulator only the
traversers that exit through `until` produce output. A larger `fuel`
only ever extends the output; the real query has no iteration bound at
all, so statements about non-termination quantify over all `fuel`. -/
def repeatUntilEmit (G : GGraph) : Nat → List String → List String
  | 0, _ => []
  | n + 1, frontier =>
      let next := frontier.flatMap (outMemberOf G)
      next.filter (isRootDir G) ++ repeatUntilEmit G n (frontierStep G frontier)

/-- Whether every traverser has left the `repeat` loop (by exiting at
the root marker or by running out of `MEMBEROF` edges) within `n`
iterations: the loop of the real, unbounded query terminates on this
start frontier exactly when this holds for some `n`. -/
def walkCompletes (G : GGraph) : Nat → List String → Bool
  | 0, frontier => frontier.isEmpty
  | n + 1, frontier => frontier.isEmpty || walkCompletes G n (frontierStep G frontier)

/-- Gremlin `dedup()`: drop repeated elements, keeping first
occurrences in traversal order. -/
def dedupFirst (l : List String) : List String :=
  go [] l
where
  go : List String → List String → List String
  | _, [] => []
  | seen, a :: rest =>
      if a ∈ seen then go seen rest else a :: go (a :: seen) rest

/-- The owner traversal shared by `query_directory_info` and
`query_video_info`:
`union(__.in_('OWNER'), __.repeat(__.out('MEMBEROF')).until(__.has('name', 'petVideosDirectory')).in_('OWNER')).dedup()`
over the resource vertex id. The second union branch emits only the
vertices that satisfy the `until` predicate (the root marker) and then
takes their owners. -/
def ownersTraversal (G : GGraph) (fuel : Nat) (v : String) : List String :=
  dedupFirst (inOwner G v ++ (repeatUntilEmit G fuel [v]).flatMap (inOwner G))

/-- The parents traversal shared by both queries:
`union(__.out('MEMBEROF'), __.repeat(__.out('MEMBEROF')).until(__.has('name', 'petVideosDirectory'))).dedup()`. -/
def parentsTraversal (G : GGraph) (fuel : Nat) (v : String) : List String :=
  dedupFirst (outMemberOf G v ++ repeatUntilEmit G fuel [v])

/-- `database.query_directory_info`: `none` when no directory vertex
carries the name, otherwise the `Directory` record assembled from the
owner and parents traversals and the vertex's own `isPublic` property
(`owner_name` reads the `name` property of the deduplicated owner
vertices). -/
def query_directory_info (G : GGraph) (fuel : Nat) (directory_name : String) :
    Option Directory :=
  match findVertexByName G "directory" directory_name with
  | none => none
  | some v =>
      some { directory_id := v.vid, directory_name := directory_name,
             owner_id := ownersTraversal G fuel v.vid,
             owner_name := (ownersTraversal G fuel v.vid).map (nameOf G),
             parents_id := parentsTraversal G fuel v.vid,
             isPublic := v.isPublic }

/-- `database.query_video_info`, identical in structure over the
`video` label. -/
def query_video_info (G : GGraph) (fuel : Nat) (video_name : String) :
    Option Video :=
  match findVertexByName G "video" video_name with
  | none => none
  | some v =>
      some { video_id := v.vid, video_name := video_name,
             owner_id := ownersTraversal G fuel v.vid,
             owner_name := (ownersTraversal G fuel v.vid).map (nameOf G),
             parents_id := parentsTraversal G fuel v.vid,
             isPublic := v.isPublic }

/-! ### The API handler of `main.py` -/

/-- A Python exception escaping a database call: either a
`jose.JWTError` (the only class the resolution step's `except` clause
catches) or any other exception, carrying `str(e)`. -/
inductive PyErr where
  | jwtError : String → PyErr
  | otherError : String → PyErr
deriving DecidableEq, Repr

/-- The response dict assembled by `format_response`, reduced to the
status code and the `message` field of its body. -/
structure Response where
  statusCode : Nat
  message : String
deriving DecidableEq, Repr

/-- `main.format_response` (headers and JSON wrapping elided). -/
def format_response (body : String) (status_code : Nat) : Response :=
  { statusCode := status_code, message := body }

/-- The `ACTIONS` route table: resource path and HTTP method to action
name, `"Unknown"` (the `dict.get` default) otherwise. -/
def ACTIONS (resource method : String) : String :=
  if resource == "/directory/get" && method == "GET" then "ViewDirectory"
  else if resource == "/video/get" && method == "GET" then "ViewVideo"
  else "Unknown"

/-- The `directoryName` / `videoName` fields of a request body or query
string; `none` models an absent key. -/
structure RequestParams where
  directoryName : Option String
  videoName : Option String
deriving DecidableEq, Repr

/-- An API Gateway event as far as the handler reads it. `authOk` models
whether decoding the bearer token succeeds (its `except JWTError` branch
returns 401 otherwise); `idToken` is the `id-token` header. -/
structure Event where
  resource : String
  httpMethod : String
  authOk : Bool
  body : Option RequestParams
  queryStringParameters : Option RequestParams
  idToken : Option String
deriving DecidableEq, Repr

/-- Name extraction of `main.py`: the body, when present, supplies both
names; otherwise the query string does; otherwise both stay `None`. -/
def extractNames (ev : Event) : Option String × Option String :=
  match ev.body with
  | some b => (b.directoryName, b.videoName)
  | none =>
      match ev.queryStringParameters with
      | some q => (q.directoryName, q.videoName)
      | none => (none, none)

/-- Python truthiness of an optional string (`None` and `""` are
falsy). -/
def truthy : Option String → Bool
  | none => false
  | some s => !s.isEmpty

/-- `main.handler`. The graph store is passed as the two fallible
lookups `dirLookup` / `vidLookup` (each call models one
`database.query_*_info` round trip against an unchanged store) and the
policy engine as the `avp` oracle. The `Except` layer carries
exceptions that escape the handler uncaught; `none` in the result is
Python's implicit `None` return on the unreachable leftover action
branch. `video_dir` and `video` start as unbound locals (`none`);
reading one while unbound is the `NameError` that the decision
dispatch's `except Exception` turns into a 401 response. -/
def handler (policyStoreSet : Bool) (policyStoreId : String) (ev : Event)
    (dirLookup : String → Except PyErr (Option Directory))
    (vidLookup : String → Except PyErr (Option Video))
    (avp : AVPArgs → Except String AVPResponse) : Except PyErr (Option Response) := do
  if !policyStoreSet then
    return some (format_response
      "API Lambda environment variables not set. Please set POLICY_STORE_ID." 500)
  let action := ACTIONS ev.resource ev.httpMethod
  if action == "Unknown" then
    return some (format_response "Unknown API call" 404)
  if !ev.authOk then
    return some (format_response "Access denied -- token broken" 401)
  let (directory_name, video_name) := extractNames ev
  if truthy directory_name then
    match dirLookup (directory_name.getD "") with
    | .error e => throw e
    | .ok none =>
        return some (format_response "Invalid input -- directory doesn't exist" 400)
    | .ok (some _) => pure ()
  else if truthy video_name then
    match vidLookup (video_name.getD "") with
    | .error e => throw e
    | .ok none =>
        return some (format_response "Invalid input -- video doesn't exist" 400)
    | .ok (some _) => pure ()
  if !truthy ev.idToken then
    return some (format_response "Access denied -- no identity token provided" 401)
  let mut video_dir : Option (Option Directory) := none
  let mut video : Option (Option Video) := none
  if truthy directory_name then
    match dirLookup (directory_name.getD "") with
    | .error (.jwtError _) =>
        return some (format_response "Access denied -- token broken" 401)
    | .error e => throw e
    | .ok d => video_dir := some d
  else if truthy video_name then
    match vidLookup (video_name.getD "") with
    | .error (.jwtError _) =>
        return some (format_response "Access denied -- token broken" 401)
    | .error e => throw e
    | .ok v => video := some v
  if action == "ViewDirectory" then
    match video_dir with
    | none =>
        return some (format_response
          "Access denied -- permissions check failed - name 'video_dir' is not defined" 401)
    | some d =>
        match permissions_check_token_directory policyStoreId (ev.idToken.getD "")
            action d avp with
        | .error e =>
            return some (format_response
              ("Access denied -- permissions check failed - " ++ e) 401)
        | .ok r =>
            if r.decision == "ALLOW" then
              match r.determining_policies with
              | [] =>
                  return some (format_response
                    "Access denied -- permissions check failed - list index out of range" 401)
              | p :: _ =>
                  return some (format_response
                    ("Access allowed -- determining policy id is " ++ p.policyId) 200)
            else
              return some (format_response "Access denied -- permissions check failed" 401)
  else if action == "ViewVideo" then
    match video with
    | none =>
        return some (format_response
          "Access denied -- permissions check failed - name 'video' is not defined" 401)
    | some v =>
        match permissions_check_token_video policyStoreId (ev.idToken.getD "")
            action v avp with
        | .error e =>
            return some (format_response
              ("Access denied -- permissions check failed - " ++ e) 401)
        | .ok r =>
            if r.decision == "ALLOW" then
              match r.determining_policies with
              | [] =>
                  return some (format_response
                    "Access denied -- permissions check failed - list index out of range" 401)
              | p :: _ =>
                  return some (format_response
                    ("Access allowed -- determining policy id is " ++ p.policyId) 200)
            else
              return some (format_response "Access denied -- permissions check failed" 401)
  else
    return none

/-- An access-denied response as the dispatcher's clients see one:
HTTP 401 with an "Access denied" message, the same shape the DENY
verdict produces. -/
def isAccessDenied (r : Response) : Bool :=
  r.statusCode == 401 && "Access denied".toList.isPrefixOf r.message.toList

/-! ### Spec-side definitions, for the refinement comparisons -/

/-- Spec-side definition, following the specification's words for the
ancestor chain: the ordered chain of directory ids from the resource's
immediate parent up to and including the root, walking the unique
`MEMBEROF` parent at each step (empty when the membership relation
stops or branches), bounded by fuel. -/
def specAncestorChain (G : GGraph) : Nat → String → List String
  | 0, _ => []
  | n + 1, r =>
      match outMemberOf G r with
      | [p] => if isRootDir G p then [p] else p :: specAncestorChain G n p
      | _ => []

/-- Spec-side definition, following the specification's words for the
resolved owner set: "union of direct owners and owners of every
ancestor up to the root", deduplicated in discovery order. -/
def specOwnerClosure (G : GGraph) (fuel : Nat) (r : String) : List String :=
  dedupFirst (inOwner G r ++ (specAncestorChain G fuel r).flatMap (inOwner G))

/-- A resource vertex `r` sits on a well-formed `MEMBEROF` chain: the
list is its ancestor chain (immediate parent first), every link has
exactly one parent, no intermediate link is the root marker, and the
chain ends at `root`, which is. This is the forest shape the sample
topology guarantees. -/
inductive ChainTo (G : GGraph) : String → List String → String → Prop
  | base {r root : String} :
      outMemberOf G r = [root] → isRootDir G root = true →
      ChainTo G r [root] root
  | step {r p root : String} {ps : List String} :
      outMemberOf G r = [p] → isRootDir G p = false →
      ChainTo G p ps root → ChainTo G r (p :: ps) root

mutual

/-- The values `attribute_value` accepts: strings, booleans and dicts
at the leaves, lists and sets of accepted values; ints, floats and
`None` are rejected wherever they occur. -/
def wellFormedAttr : PyVal → Bool
  | .pstr _ => true
  | .pbool _ => true
  | .pdict _ => true
  | .plist l => wellFormedAttrList l
  | .pset l => wellFormedAttrList l
  | .pint _ => false
  | .pfloat => false
  | .pnone => false

/-- `wellFormedAttr` over every element of a list. -/
def wellFormedAttrList : List PyVal → Bool
  | [] => true
  | v :: vs => wellFormedAttr v && wellFormedAttrList vs

end

mutual

/-- The total conversion `attribute_value` computes on accepted values
(arbitrary on rejected ones, where it is never used). -/
def convertAttr : PyVal → PyVal
  | .pstr s => .pdict [("string", .pstr s)]
  | .pbool b => .pdict [("boolean", .pbool b)]
  | .pdict d => .pdict [("entityIdentifier", .pdict d)]
  | .plist l => .pdict [("set", .plist (convertAttrList l))]
  | .pset l => .pdict [("set", .plist (convertAttrList l))]
  | v => v

/-- `convertAttr` over the elements of a list. -/
def convertAttrList : List PyVal → List PyVal
  | [] => []
  | v :: vs => convertAttr v :: convertAttrList vs

end

/-! ### Concrete graphs used by witnesses and counterexamples -/

/-- A forest-shaped sample graph: directory chain
`deep (d4) → leaf (d3) → mid (d2) → petVideosDirectory (d1)` plus a
video `clip.mp4 (v1)` under `mid`; users `u1`…`u4` own `leaf`, `mid`,
the root and the clip respectively. -/
def exG : GGraph :=
  { vertices :=
      [ { vid := "d1", label := "directory", name := "petVideosDirectory", isPublic := true },
        { vid := "d2", label := "directory", name := "mid", isPublic := false },
        { vid := "d3", label := "directory", name := "leaf", isPublic := false },
        { vid := "d4", label := "directory", name := "deep", isPublic := false },
        { vid := "v1", label := "video", name := "clip.mp4", isPublic := false },
        { vid := "u1", label := "user", name := "alice", isPublic := false },
        { vid := "u2", label := "user", name := "bob", isPublic := false },
        { vid := "u3", label := "user", name := "carol", isPublic := false },
        { vid := "u4", label := "user", name := "dave", isPublic := false } ],
    owner := [("u1", "d3"), ("u2", "d2"), ("u3", "d1"), ("u4", "v1")],
    memberOf := [("d4", "d3"), ("d3", "d2"), ("d2", "d1"), ("v1", "d2")] }

/-- A graph whose directory `branchy (b0)` has two `MEMBEROF` parents
`b1` and `b2`, both members of the root `broot`. -/
def branchG : GGraph :=
  { vertices :=
      [ { vid := "broot", label := "directory", name := "petVideosDirectory", isPublic := false },
        { vid := "b0", label := "directory", name := "branchy", isPublic := false },
        { vid := "b1", label := "directory", name := "left", isPublic := false },
        { vid := "b2", label := "directory", name := "right", isPublic := false } ],
    owner := [],
    memberOf := [("b0", "b1"), ("b0", "b2"), ("b1", "broot"), ("b2", "broot")] }

/-- A malformed graph whose directories `cyc (c1)` and `cyc2 (c2)` form
a two-cycle in `MEMBEROF`, with no root marker reachable. -/
def cycleG : GGraph :=
  { vertices :=
      [ { vid := "c1", label := "directory", name := "cyc", isPublic := false },
        { vid := "c2", label := "directory", name := "cyc2", isPublic := false } ],
    owner := [],
    memberOf := [("c1", "c2"), ("c2", "c1")] }

/-! ### Shared lemmas about the repeat/until walk -/

theorem repeatUntilEmit_nil (G : GGraph) : ∀ n : Nat, repeatUntilEmit G n [] = []
  | 0 => rfl
  | n + 1 => by
      simp [repeatUntilEmit, frontierStep, repeatUntilEmit_nil G n]

theorem walkCompletes_nil (G : GGraph) : ∀ n : Nat, walkCompletes G n [] = true
  | 0 => rfl
  | n + 1 => by simp [walkCompletes]

/-- On a single-parent chain ending at the root, the repeat/until
traversal emits exactly the root vertex once the fuel covers the chain
length. -/
theorem chain_emit {G : GGraph} {r root : String} {path : List String}
    (h : ChainTo G r path root) :
    ∀ n : Nat, path.length ≤ n → repeatUntilEmit G n [r] = [root] := by
  induction h with
  | @base r root hout hroot =>
      intro n hn
      cases n with
      | zero => simp at hn
      | succ m =>
          simp [repeatUntilEmit, frontierStep, hout, hroot, repeatUntilEmit_nil]
  | @step r p root ps hout hnroot _ ih =>
      intro n hn
      cases n with
      | zero => simp at hn
      | succ m =>
          have hm : ps.length ≤ m := by simpa using hn
          simp [repeatUntilEmit, frontierStep, hout, hnroot, ih m hm]

/-- On a single-parent chain ending at the root, every traverser has
left the loop once the fuel covers the chain length. -/
theorem chain_completes {G : GGraph} {r root : String} {path : List String}
    (h : ChainTo G r path root) :
    ∀ n : Nat, path.length ≤ n → walkCompletes G n [r] = true := by
  induction h with
  | @base r root hout hroot =>
      intro n hn
      cases n with
      | zero => simp at hn
      | succ m => simp [walkCompletes, frontierStep, hout, hroot, walkCompletes_nil]
  | @step r p root ps hout hnroot _ ih =>
      intro n hn
      cases n with
      | zero => simp at hn
      | succ m =>
          have hm : ps.length ≤ m := by simpa using hn
          simp [walkCompletes, frontierStep, hout, hnroot, ih m hm]

/-- A vertex with no outgoing `MEMBEROF` edge emits nothing: its
traverser dies on the first hop. -/
theorem noedge_emit {G : GGraph} {r : String} (h : outMemberOf G r = []) :
    ∀ n : Nat, repeatUntilEmit G n [r] = [] := by
  intro n
  cases n with
  | zero => rfl
  | succ m => simp [repeatUntilEmit, frontierStep, h, repeatUntilEmit_nil]

theorem noedge_completes {G : GGraph} {r : String} (h : outMemberOf G r = []) :
    ∀ n : Nat, walkCompletes G (n + 1) [r] = true := by
  intro n
  simp [walkCompletes, frontierStep, h, walkCompletes_nil]

/-- On the two-cycle graph the frontier alternates between the two
directories forever: the loop never drains, for any number of
iterations. -/
theorem cycle_walk_stuck : ∀ n : Nat,
    walkCompletes cycleG n ["c1"] = false ∧ walkCompletes cycleG n ["c2"] = false
  | 0 => ⟨rfl, rfl⟩
  | n + 1 => by
      have ih := cycle_walk_stuck n
      have h1 : frontierStep cycleG ["c1"] = ["c2"] := by decide
      have h2 : frontierStep cycleG ["c2"] = ["c1"] := by decide
      constructor
      · simp [walkCompletes, h1, ih.2]
      · simp [walkCompletes, h2, ih.1]

/-- Under a chain, the owner traversal collects exactly the direct
owners of the resource and the direct owners of the root. -/
theorem ownersTraversal_chain {G : GGraph} {r root : String} {path : List String}
    (h : ChainTo G r path root) {n : Nat} (hn : path.length ≤ n) :
    ownersTraversal G n r = dedupFirst (inOwner G r ++ inOwner G root) := by
  simp [ownersTraversal, chain_emit h n hn]

/-- Under a chain, the parents traversal collects exactly the immediate
parent and the root. -/
theorem parentsTraversal_chain {G : GGraph} {r root : String} {path : List String}
    (h : ChainTo G r path root) {n : Nat} (hn : path.length ≤ n) :
    parentsTraversal G n r = dedupFirst (outMemberOf G r ++ [root]) := by
  simp [parentsTraversal, chain_emit h n hn]

/-! ### C1: owner closure -/

/-- Claim C1 (amended): for a resource on a single-parent `MEMBEROF`
chain to the root, the `owner_id` list computed by
`query_directory_info` / `query_video_info` equals the deduplicated
union of the resource's direct owners and the root directory's direct
owners only — the `until` clause emits just the root, so direct owners
of intermediate ancestors are not included, and the set has at most 2
contributing vertices rather than N+1. -/
theorem c1_owner_closure_amended (G : GGraph) (nm : String) (v : GVertex)
    (path : List String) (root : String) (fuel : Nat) :
    (findVertexByName G "directory" nm = some v → ChainTo G v.vid path root →
      path.length ≤ fuel →
      (query_directory_info G fuel nm).map Directory.owner_id
        = some (dedupFirst (inOwner G v.vid ++ inOwner G root)))
    ∧ (findVertexByName G "video" nm = some v → ChainTo G v.vid path root →
      path.length ≤ fuel →
      (query_video_info G fuel nm).map Video.owner_id
        = some (dedupFirst (inOwner G v.vid ++ inOwner G root))) := by
  constructor <;> intro hv hc hn <;>
    simp [query_directory_info, query_video_info, hv, ownersTraversal_chain hc hn]

/-- Witness for C1: the amended theorem applied to `leaf` (directory
leg) and `clip.mp4` (video leg) of the sample graph. -/
theorem c1_owner_closure_amended_witness :
    (query_directory_info exG 10 "leaf").map Directory.owner_id
      = some (dedupFirst (inOwner exG "d3" ++ inOwner exG "d1"))
    ∧ (query_video_info exG 10 "clip.mp4").map Video.owner_id
      = some (dedupFirst (inOwner exG "v1" ++ inOwner exG "d1")) := by
  have hchain3 : ChainTo exG "d3" ["d2", "d1"] "d1" :=
    ChainTo.step (by decide) (by decide) (ChainTo.base (by decide) (by decide))
  have hchainv : ChainTo exG "v1" ["d2", "d1"] "d1" :=
    ChainTo.step (by decide) (by decide) (ChainTo.base (by decide) (by decide))
  exact ⟨(c1_owner_closure_amended exG "leaf"
            { vid := "d3", label := "directory", name := "leaf", isPublic := false }
            ["d2", "d1"] "d1" 10).1 (by decide) hchain3 (by decide),
         (c1_owner_closure_amended exG "clip.mp4"
            { vid := "v1", label := "video", name := "clip.mp4", isPublic := false }
            ["d2", "d1"] "d1" 10).2 (by decide) hchainv (by decide)⟩

/-- Counterexample to C1 as stated: in the sample graph, `leaf` sits at
ancestor depth 2 (`mid`, then the root); the spec's closure contains
the intermediate owner `u2` of `mid`, but the owner list the code
computes is `["u1", "u3"]` and omits `u2`. -/
theorem c1_owner_closure_counterexample :
    (query_directory_info exG 10 "leaf").map Directory.owner_id = some ["u1", "u3"]
    ∧ specOwnerClosure exG 10 "d3" = ["u1", "u2", "u3"]
    ∧ "u2" ∈ specOwnerClosure exG 10 "d3"
    ∧ "u2" ∉ (["u1", "u3"] : List String) := by decide

/-! ### C4: ancestor chain -/

/-- Claim C4 (amended): for a resource on a single-parent `MEMBEROF`
chain to the root, the `parents_id` list equals the deduplicated
immediate parent followed by the root — the repeat/until union emits
only the root, so strictly intermediate ancestors are missing from the
chain whenever the depth exceeds 2. -/
theorem c4_ancestor_chain_amended (G : GGraph) (nm : String) (v : GVertex)
    (path : List String) (root : String) (fuel : Nat) :
    (findVertexByName G "directory" nm = some v → ChainTo G v.vid path root →
      path.length ≤ fuel →
      (query_directory_info G fuel nm).map Directory.parents_id
        = some (dedupFirst (outMemberOf G v.vid ++ [root])))
    ∧ (findVertexByName G "video" nm = some v → ChainTo G v.vid path root →
      path.length ≤ fuel →
      (query_video_info G fuel nm).map Video.parents_id
        = some (dedupFirst (outMemberOf G v.vid ++ [root]))) := by
  constructor <;> intro hv hc hn <;>
    simp [query_directory_info, query_video_info, hv, parentsTraversal_chain hc hn]

/-- Witness for C4: the amended theorem applied to `deep` (directory
leg) and `clip.mp4` (video leg) of the sample graph. -/
theorem c4_ancestor_chain_amended_witness :
    (query_directory_info exG 10 "deep").map Directory.parents_id
      = some (dedupFirst (outMemberOf exG "d4" ++ ["d1"]))
    ∧ (query_video_info exG 10 "clip.mp4").map Video.parents_id
      = some (dedupFirst (outMemberOf exG "v1" ++ ["d1"])) := by
  have hchain4 : ChainTo exG "d4" ["d3", "d2", "d1"] "d1" :=
    ChainTo.step (by decide) (by decide)
      (ChainTo.step (by decide) (by decide) (ChainTo.base (by decide) (by decide)))
  have hchainv : ChainTo exG "v1" ["d2", "d1"] "d1" :=
    ChainTo.step (by decide) (by decide) (ChainTo.base (by decide) (by decide))
  exact ⟨(c4_ancestor_chain_amended exG "deep"
            { vid := "d4", label := "directory", name := "deep", isPublic := false }
            ["d3", "d2", "d1"] "d1" 10).1 (by decide) hchain4 (by decide),
         (c4_ancestor_chain_amended exG "clip.mp4"
            { vid := "v1", label := "video", name := "clip.mp4", isPublic := false }
            ["d2", "d1"] "d1" 10).2 (by decide) hchainv (by decide)⟩

/-- Counterexample to C4 as stated: `deep` has the ancestor chain
`[d3, d2, d1]`, but the code computes `parents_id = [d3, d1]`, skipping
the intermediate ancestor `d2`. -/
theorem c4_ancestor_chain_counterexample :
    (query_directory_info exG 10 "deep").map Directory.parents_id = some ["d3", "d1"]
    ∧ specAncestorChain exG 10 "d4" = ["d3", "d2", "d1"]
    ∧ "d2" ∈ specAncestorChain exG 10 "d4"
    ∧ "d2" ∉ (["d3", "d1"] : List String) := by decide

/-! ### C2: termination of the ancestor walk -/

/-- Claim C2 (amended): the ancestor walk stops on reaching the root
marker (within a number of hops equal to the chain length) and stops
immediately when no `MEMBEROF` edge exists; but the query configures no
maximum number of hops and has no `CycleDetected` failure: on the
two-cycle graph the walk completes within no bound whatsoever. -/
theorem c2_termination_amended :
    (∀ (G : GGraph) (r root : String) (path : List String) (n : Nat),
        ChainTo G r path root → path.length ≤ n → walkCompletes G n [r] = true)
    ∧ (∀ (G : GGraph) (r : String) (n : Nat),
        outMemberOf G r = [] → walkCompletes G (n + 1) [r] = true)
    ∧ (∀ n : Nat, walkCompletes cycleG n ["c1"] = false) :=
  ⟨fun _ _ _ _ n hc hn => chain_completes hc n hn,
   fun _ _ n h => noedge_completes h n,
   fun n => (cycle_walk_stuck n).1⟩

/-- Witness for C2: `deep` completes in 3 hops, the edge-less root
completes at once, and the cyclic walk is still looping after 5 hops. -/
theorem c2_termination_amended_witness :
    walkCompletes exG 3 ["d4"] = true
    ∧ walkCompletes exG 1 ["d1"] = true
    ∧ walkCompletes cycleG 5 ["c1"] = false := by
  have hchain4 : ChainTo exG "d4" ["d3", "d2", "d1"] "d1" :=
    ChainTo.step (by decide) (by decide)
      (ChainTo.step (by decide) (by decide) (ChainTo.base (by decide) (by decide)))
  exact ⟨c2_termination_amended.1 exG "d4" "d1" ["d3", "d2", "d1"] 3 hchain4 (by decide),
         c2_termination_amended.2.1 exG "d1" 0 (by decide),
         c2_termination_amended.2.2 5⟩

/-- Counterexample to C2 as stated: on the cyclic graph the walk has
reached neither stopping condition after 100 hops, yet nothing fails —
the traversal emits no vertex and produces no `CycleDetected` (no such
failure exists anywhere in the code); the loop is simply still
running. -/
theorem c2_termination_counterexample :
    walkCompletes cycleG 100 ["c1"] = false
    ∧ repeatUntilEmit cycleG 100 ["c1"] = [] := by decide

/-! ### C5: branching membership -/

/-- Claim C5 (amended): hierarchy resolution never fails on branching
membership — there is no `MalformedHierarchy` error: resolution
returns a record exactly when the named vertex exists, whatever the
out-degree, and with more than one `MEMBEROF` edge the traversal simply
follows every branch. With zero `MEMBEROF` edges the walk stops
normally (empty parents, direct owners only). -/
theorem c5_branching_amended (G : GGraph) (nm : String) (v : GVertex) (fuel : Nat) :
    ((query_directory_info G fuel nm).isSome
        = (findVertexByName G "directory" nm).isSome)
    ∧ ((query_video_info G fuel nm).isSome
        = (findVertexByName G "video" nm).isSome)
    ∧ (findVertexByName G "directory" nm = some v → outMemberOf G v.vid = [] →
        (query_directory_info G fuel nm).map Directory.parents_id = some []
        ∧ (query_directory_info G fuel nm).map Directory.owner_id
            = some (dedupFirst (inOwner G v.vid))) := by
  refine ⟨?_, ?_, ?_⟩
  · cases h : findVertexByName G "directory" nm <;> simp [query_directory_info, h]
  · cases h : findVertexByName G "video" nm <;> simp [query_video_info, h]
  · intro hv hout
    constructor <;>
      simp [query_directory_info, hv, parentsTraversal, ownersTraversal,
            hout, noedge_emit hout, dedupFirst, dedupFirst.go]

/-- Witness for C5: the branching vertex `branchy` resolves to a
record, a missing name resolves to `none`, and the edge-less root of
the sample graph stops normally. -/
theorem c5_branching_amended_witness :
    (query_directory_info branchG 10 "branchy").isSome
        = (findVertexByName branchG "directory" "branchy").isSome
    ∧ (query_video_info branchG 10 "nope").isSome
        = (findVertexByName branchG "video" "nope").isSome
    ∧ ((query_directory_info exG 10 "petVideosDirectory").map Directory.parents_id
          = some []
        ∧ (query_directory_info exG 10 "petVideosDirectory").map Directory.owner_id
            = some (dedupFirst (inOwner exG "d1"))) := by
  refine ⟨(c5_branching_amended branchG "branchy"
            { vid := "b0", label := "directory", name := "branchy", isPublic := false }
            10).1,
          (c5_branching_amended branchG "nope"
            { vid := "b0", label := "directory", name := "branchy", isPublic := false }
            10).2.1,
          (c5_branching_amended exG "petVideosDirectory"
            { vid := "d1", label := "directory", name := "petVideosDirectory",
              isPublic := true } 10).2.2 (by decide) (by decide)⟩

/-- Counterexample to C5 as stated: `branchy` has two outgoing
`MEMBEROF` edges, yet resolution does not fail — it returns a resolved
hierarchy whose parents merge both branches with the root. -/
theorem c5_branching_counterexample :
    outMemberOf branchG "b0" = ["b1", "b2"]
    ∧ (query_directory_info branchG 10 "branchy").isSome = true
    ∧ (query_directory_info branchG 10 "branchy").map Directory.parents_id
        = some ["b1", "b2", "broot"] := by decide

/-! ### Shared lemmas about `attribute_value` -/

theorem exceptMap_isOk {ε α β : Type} (x : Except ε α) (f : α → β) :
    (x.map f).isOk = x.isOk := by cases x <;> rfl

mutual

theorem attribute_value_isOk : ∀ v : PyVal, (attribute_value v).isOk = wellFormedAttr v
  | .pstr _ => rfl
  | .pbool _ => rfl
  | .pdict _ => rfl
  | .pint _ => rfl
  | .pfloat => rfl
  | .pnone => rfl
  | .plist l => by
      simp [attribute_value, wellFormedAttr, exceptMap_isOk, attribute_value_list_isOk l]
  | .pset l => by
      simp [attribute_value, wellFormedAttr, exceptMap_isOk, attribute_value_list_isOk l]

theorem attribute_value_list_isOk :
    ∀ l : List PyVal, (attribute_value_list l).isOk = wellFormedAttrList l
  | [] => rfl
  | v :: vs => by
      have h1 := attribute_value_isOk v
      have h2 := attribute_value_list_isOk vs
      cases hv : attribute_value v with
      | error e =>
          rw [hv] at h1
          simp [attribute_value_list, hv, wellFormedAttrList, ← h1, Except.isOk,
            Except.toBool, Bind.bind, Except.bind]
      | ok c =>
          rw [hv] at h1
          cases hvs : attribute_value_list vs with
          | error e =>
              rw [hvs] at h2
              simp [attribute_value_list, hv, hvs, wellFormedAttrList, ← h1, ← h2,
                Except.isOk, Except.toBool, Bind.bind, Except.bind]
          | ok cs =>
              rw [hvs] at h2
              simp [attribute_value_list, hv, hvs, wellFormedAttrList, ← h1, ← h2,
                Except.isOk, Except.toBool, Bind.bind, Except.bind]

end

mutual

theorem attribute_value_eq_convert :
    ∀ v : PyVal, wellFormedAttr v = true → attribute_value v = .ok (convertAttr v)
  | .pstr _, _ => rfl
  | .pbool _, _ => rfl
  | .pdict _, _ => rfl
  | .plist l, h => by
      rw [wellFormedAttr] at h
      simp [attribute_value, convertAttr, attribute_value_list_eq_convert l h, Except.map]
  | .pset l, h => by
      rw [wellFormedAttr] at h
      simp [attribute_value, convertAttr, attribute_value_list_eq_convert l h, Except.map]

theorem attribute_value_list_eq_convert :
    ∀ l : List PyVal, wellFormedAttrList l = true →
      attribute_value_list l = .ok (convertAttrList l)
  | [], _ => rfl
  | v :: vs, h => by
      rw [wellFormedAttrList, Bool.and_eq_true] at h
      simp [attribute_value_list, attribute_value_eq_convert v h.1,
        attribute_value_list_eq_convert vs h.2, convertAttrList, Bind.bind, Except.bind]

end

/-- Element-wise conversion of a list of typed identifiers always
succeeds, wrapping each as an `entityIdentifier` attribute. -/
theorem attribute_value_list_entity_map (t : String) (ids : List String) :
    attribute_value_list (ids.map (entity t))
      = .ok (ids.map (fun i => .pdict [("entityIdentifier", entity t i)])) := by
  induction ids with
  | nil => rfl
  | cons i rest ih =>
      simp [attribute_value_list, entity, attribute_value, ih, Bind.bind, Except.bind]

/-- `attribute_value` over an `entity_set` always succeeds, wrapping
each typed identifier as an `entityIdentifier` attribute inside a
`set` attribute. -/
theorem attribute_value_entity_set (t : String) (ids : List String) :
    attribute_value (entity_set t ids)
      = .ok (.pdict [("set", .plist (ids.map (fun i =>
          .pdict [("entityIdentifier", entity t i)])))]) := by
  simp [entity_set, attribute_value, attribute_value_list_entity_map t ids, Except.map]

/-! ### C7: entity-context schema -/

/-- Claim C7: for an existing resource, the built decision request has
exactly one entity: its identifier is the typed `PetVideosApp::Directory`
(resp. `PetVideosApp::Video`) pair with the resource's id; its
attributes are exactly `owner` — a set of `entityIdentifier` references
to typed `PetVideosApp::User` entities for the resolved owner ids — and
`isPublic` — a boolean; and its parents are the resolved ancestor-chain
ids as typed `PetVideosApp::Directory` identifiers. The request's
resource is that same identifier. -/
theorem c7_entity_context_schema (psid tok act : String) (d : Directory) (v : Video) :
    build_directory_args psid tok act (some d)
      = .ok { policyStoreId := psid, identityToken := tok,
              action := .pdict [("actionType", .pstr "PetVideosApp::Action"),
                                ("actionId", .pstr act)],
              resource := entity "Directory" d.directory_id,
              entities := some (.pdict [("entityList", .plist [
                .pdict [("identifier", entity "Directory" d.directory_id),
                        ("attributes", .pdict [
                          ("owner", .pdict [("set", .plist (d.owner_id.map (fun i =>
                            .pdict [("entityIdentifier", entity "User" i)])))]),
                          ("isPublic", .pdict [("boolean", .pbool d.isPublic)])]),
                        ("parents", .plist (d.parents_id.map (entity "Directory")))]])]) }
    ∧ build_video_args psid tok act (some v)
      = .ok { policyStoreId := psid, identityToken := tok,
              action := .pdict [("actionType", .pstr "PetVideosApp::Action"),
                                ("actionId", .pstr act)],
              resource := entity "Video" v.video_id,
              entities := some (.pdict [("entityList", .plist [
                .pdict [("identifier", entity "Video" v.video_id),
                        ("attributes", .pdict [
                          ("owner", .pdict [("set", .plist (v.owner_id.map (fun i =>
                            .pdict [("entityIdentifier", entity "User" i)])))]),
                          ("isPublic", .pdict [("boolean", .pbool v.isPublic)])]),
                        ("parents", .plist (v.parents_id.map (entity "Directory")))]])]) } := by
  constructor <;>
    simp [build_directory_args, build_video_args, directory_entities, video_entities,
      attribute_value_entity_set, attribute_value, entity_set,
      attribute_value_list_entity_map, Except.map, Bind.bind, Except.bind]

/-! ### C8: placeholder entity on missing resource -/

/-- Claim C8: with no resolved resource, both permissions checks build
a request with no entities block and with the fixed application
placeholder `PetVideosApp::Application` / `"PetVideosApp"` as the
resource. -/
theorem c8_placeholder_on_missing (psid tok act : String) :
    build_directory_args psid tok act none
      = .ok { policyStoreId := psid, identityToken := tok,
              action := .pdict [("actionType", .pstr "PetVideosApp::Action"),
                                ("actionId", .pstr act)],
              resource := .pdict [("entityType", .pstr "PetVideosApp::Application"),
                                  ("entityId", .pstr "PetVideosApp")],
              entities := none }
    ∧ build_video_args psid tok act none
      = .ok { policyStoreId := psid, identityToken := tok,
              action := .pdict [("actionType", .pstr "PetVideosApp::Action"),
                                ("actionId", .pstr act)],
              resource := .pdict [("entityType", .pstr "PetVideosApp::Application"),
                                  ("entityId", .pstr "PetVideosApp")],
              entities := none } := by
  exact ⟨rfl, rfl⟩

/-! ### C9: `attribute_value` raises exactly on unknown types -/

/-- Claim C9: `attribute_value` tags strings as `string`, booleans as
`boolean` (never as `string`), dicts as `entityIdentifier`, and lists
and sets as `set` over the recursively converted elements; it succeeds
exactly on values built from those shapes, and raises `ValueError` on
any other type, such as int, float, or None. -/
theorem c9_attribute_value_raises_iff :
    (∀ s, attribute_value (.pstr s) = .ok (.pdict [("string", .pstr s)]))
    ∧ (∀ b, attribute_value (.pbool b) = .ok (.pdict [("boolean", .pbool b)]))
    ∧ (∀ b s, attribute_value (.pbool b) ≠ .ok (.pdict [("string", .pstr s)]))
    ∧ (∀ dct, attribute_value (.pdict dct) = .ok (.pdict [("entityIdentifier", .pdict dct)]))
    ∧ (∀ l, wellFormedAttrList l = true →
        attribute_value (.plist l) = .ok (.pdict [("set", .plist (convertAttrList l))])
        ∧ attribute_value (.pset l) = .ok (.pdict [("set", .plist (convertAttrList l))]))
    ∧ (∀ v, (attribute_value v).isOk = wellFormedAttr v)
    ∧ (∀ n, attribute_value (.pint n) = .error "Unknown attribute value type: <class 'int'>")
    ∧ (attribute_value .pfloat = .error "Unknown attribute value type: <class 'float'>")
    ∧ (attribute_value .pnone = .error "Unknown attribute value type: <class 'NoneType'>") := by
  refine ⟨fun _ => rfl, fun _ => rfl, ?_, fun _ => rfl, ?_, attribute_value_isOk,
    fun _ => rfl, rfl, rfl⟩
  · intro b s h
    rw [attribute_value] at h
    simp at h
  · intro l h
    constructor <;>
      simp [attribute_value, attribute_value_list_eq_convert l h, Except.map]

/-- Witness for C9: the hypothesis-bearing list/set conjunct applied to
a concrete well-formed list, and the bool-is-not-string conjunct at a
concrete boolean. -/
theorem c9_attribute_value_raises_iff_witness :
    attribute_value (.plist [.pstr "a", .pbool true])
      = .ok (.pdict [("set", .plist [.pdict [("string", .pstr "a")],
                                     .pdict [("boolean", .pbool true)]])])
    ∧ attribute_value (.pbool true) ≠ .ok (.pdict [("string", .pstr "True")]) := by
  refine ⟨?_, c9_attribute_value_raises_iff.2.2.1 true "True"⟩
  have h := (c9_attribute_value_raises_iff.2.2.2.2.1 [.pstr "a", .pbool true] rfl).1
  simpa [convertAttrList, convertAttr] using h

/-! ### C3: errors versus DENY -/

/-- Claim C3 (amended): the two halves of the decision path treat
failures differently. A hierarchy-resolution failure (a non-JWT store
exception) propagates out of the handler uncaught, distinct from any
DENY response; but a failure of the policy-decision-engine call is
caught by the dispatch's blanket exception handler and converted into a
401 access-denied response — carrying the same status code and message
prefix as an evaluated DENY, distinguished only by the appended error
text. -/
theorem c3_error_conflation_amended (psid res mth dn tok msg engineErr : String)
    (vn : Option String) (q : Option RequestParams) (idt : Option String)
    (d : Directory)
    (vl : String → Except PyErr (Option Video))
    (avp : AVPArgs → Except String AVPResponse)
    (hact : (ACTIONS res mth == "Unknown") = false)
    (hdn : truthy (some dn) = true)
    (htok : truthy (some tok) = true) :
    (handler true psid
        { resource := res, httpMethod := mth, authOk := true,
          body := some { directoryName := some dn, videoName := vn },
          queryStringParameters := q, idToken := idt }
        (fun _ => .error (.otherError msg)) vl avp
      = .error (.otherError msg))
    ∧ (handler true psid
        { resource := "/directory/get", httpMethod := "GET", authOk := true,
          body := some { directoryName := some dn, videoName := vn },
          queryStringParameters := q, idToken := some tok }
        (fun _ => .ok (some d)) vl (fun _ => .error engineErr)
      = .ok (some (format_response
          ("Access denied -- permissions check failed - " ++ engineErr) 401)))
    ∧ (handler true psid
        { resource := "/directory/get", httpMethod := "GET", authOk := true,
          body := some { directoryName := some dn, videoName := vn },
          queryStringParameters := q, idToken := some tok }
        (fun _ => .ok (some d)) vl
        (fun _ => .ok { decision := "DENY", determiningPolicies := [] })
      = .ok (some (format_response "Access denied -- permissions check failed" 401))) := by
  refine ⟨?_, ?_, ?_⟩
  · simp [handler, extractNames, hact, hdn, pure, Except.pure, Bind.bind, Except.bind,
      throw, throwThe, MonadExceptOf.throw]
  · simp [handler, extractNames, hdn, htok, ACTIONS, pure, Except.pure, Bind.bind,
      Except.bind, permissions_check_token_directory, build_directory_args,
      directory_entities, attribute_value_entity_set, attribute_value, entity_set,
      attribute_value_list_entity_map, Except.map]
  · simp [handler, extractNames, hdn, htok, ACTIONS, pure, Except.pure, Bind.bind,
      Except.bind, permissions_check_token_directory, build_directory_args,
      directory_entities, attribute_value_entity_set, attribute_value, entity_set,
      attribute_value_list_entity_map, Except.map]

/-- Witness for C3: the amended theorem instantiated with the sample
graph's `leaf` directory, a Gremlin failure, and an engine failure. -/
theorem c3_error_conflation_amended_witness :
    (handler true "ps"
        { resource := "/directory/get", httpMethod := "GET", authOk := true,
          body := some { directoryName := some "leaf", videoName := none },
          queryStringParameters := none, idToken := some "tok" }
        (fun _ => .error (.otherError "Gremlin timeout")) (fun _ => .ok none)
        (fun _ => .ok { decision := "ALLOW", determiningPolicies := [{ policyId := "p1" }] })
      = .error (.otherError "Gremlin timeout"))
    ∧ (handler true "ps"
        { resource := "/directory/get", httpMethod := "GET", authOk := true,
          body := some { directoryName := some "leaf", videoName := none },
          queryStringParameters := none, idToken := some "tok" }
        (fun _ => .ok (some { directory_id := "d3", directory_name := "leaf",
                              owner_id := ["u1", "u3"], owner_name := ["alice", "carol"],
                              parents_id := ["d2", "d1"], isPublic := false }))
        (fun _ => .ok none) (fun _ => .error "PolicyEngineUnavailable")
      = .ok (some (format_response
          "Access denied -- permissions check failed - PolicyEngineUnavailable" 401))) := by
  have h := c3_error_conflation_amended "ps" "/directory/get" "GET" "leaf" "tok"
    "Gremlin timeout" "PolicyEngineUnavailable" none none (some "tok")
    { directory_id := "d3", directory_name := "leaf", owner_id := ["u1", "u3"],
      owner_name := ["alice", "carol"], parents_id := ["d2", "d1"], isPublic := false }
    (fun _ => .ok none)
    (fun _ => .ok { decision := "ALLOW", determiningPolicies := [{ policyId := "p1" }] })
    (by decide) (by decide) (by decide)
  exact ⟨h.1, h.2.1⟩

set_option maxRecDepth 8000 in
/-- Counterexample to C3 as stated: a policy-engine failure is
converted into an access-denied response — 401 with an "Access denied"
message — the very same status the DENY verdict yields, instead of
propagating as a typed failure. -/
theorem c3_error_conflation_counterexample :
    handler true "ps"
      { resource := "/directory/get", httpMethod := "GET", authOk := true,
        body := some { directoryName := some "leaf", videoName := none },
        queryStringParameters := none, idToken := some "tok" }
      (fun nm => .ok (query_directory_info exG 10 nm))
      (fun nm => .ok (query_video_info exG 10 nm))
      (fun _ => .error "PolicyEngineUnavailable")
    = .ok (some (format_response
        "Access denied -- permissions check failed - PolicyEngineUnavailable" 401))
    ∧ isAccessDenied (format_response
        "Access denied -- permissions check failed - PolicyEngineUnavailable" 401)
      = true
    ∧ handler true "ps"
      { resource := "/directory/get", httpMethod := "GET", authOk := true,
        body := some { directoryName := some "leaf", videoName := none },
        queryStringParameters := none, idToken := some "tok" }
      (fun nm => .ok (query_directory_info exG 10 nm))
      (fun nm => .ok (query_video_info exG 10 nm))
      (fun _ => .ok { decision := "DENY", determiningPolicies := [] })
    = .ok (some (format_response "Access denied -- permissions check failed" 401)) := by
  decide

/-! ### C6: not-found short-circuit -/

/-- Claim C6: when the resource the request targets is absent from the
graph (the lookup yields `None`), the handler returns the 400
"doesn't exist" response — a lookup failure whose status differs from
the 401 of DENY — for every policy-engine oracle whatsoever: no
decision request is issued. Both the directory and the video leg hold. -/
theorem c6_not_found_short_circuit (psid res mth dn vnm : String)
    (vn : Option String) (q : Option RequestParams) (idt : Option String)
    (dl : String → Except PyErr (Option Directory))
    (vl : String → Except PyErr (Option Video))
    (avp : AVPArgs → Except String AVPResponse)
    (hact : (ACTIONS res mth == "Unknown") = false) :
    (truthy (some dn) = true → dl dn = .ok none →
      handler true psid
        { resource := res, httpMethod := mth, authOk := true,
          body := some { directoryName := some dn, videoName := vn },
          queryStringParameters := q, idToken := idt }
        dl vl avp
      = .ok (some (format_response "Invalid input -- directory doesn't exist" 400)))
    ∧ (truthy (some vnm) = true → vl vnm = .ok none →
      handler true psid
        { resource := res, httpMethod := mth, authOk := true,
          body := some { directoryName := none, videoName := some vnm },
          queryStringParameters := q, idToken := idt }
        dl vl avp
      = .ok (some (format_response "Invalid input -- video doesn't exist" 400)))
    ∧ (format_response "Invalid input -- directory doesn't exist" 400).statusCode ≠ 401
    ∧ (format_response "Invalid input -- video doesn't exist" 400).statusCode ≠ 401 := by
  have hnone : truthy (none : Option String) = false := rfl
  refine ⟨?_, ?_, by decide, by decide⟩
  · intro hdn hdl
    simp [handler, extractNames, hact, hdn, hdl, pure, Except.pure, Bind.bind, Except.bind]
  · intro hvn hvl
    simp [handler, extractNames, hact, hvn, hvl, hnone, pure, Except.pure, Bind.bind,
      Except.bind]

set_option maxRecDepth 8000 in
/-- Witness for C6: a missing directory and a missing video over the
sample graph's lookups, against an oracle that would allow anything. -/
theorem c6_not_found_short_circuit_witness :
    handler true "ps"
      { resource := "/directory/get", httpMethod := "GET", authOk := true,
        body := some { directoryName := some "ghost", videoName := none },
        queryStringParameters := none, idToken := some "tok" }
      (fun nm => .ok (query_directory_info exG 10 nm))
      (fun nm => .ok (query_video_info exG 10 nm))
      (fun _ => .ok { decision := "ALLOW", determiningPolicies := [{ policyId := "p1" }] })
    = .ok (some (format_response "Invalid input -- directory doesn't exist" 400))
    ∧ handler true "ps"
      { resource := "/video/get", httpMethod := "GET", authOk := true,
        body := some { directoryName := none, videoName := some "ghost.mp4" },
        queryStringParameters := none, idToken := some "tok" }
      (fun nm => .ok (query_directory_info exG 10 nm))
      (fun nm => .ok (query_video_info exG 10 nm))
      (fun _ => .ok { decision := "ALLOW", determiningPolicies := [{ policyId := "p1" }] })
    = .ok (some (format_response "Invalid input -- video doesn't exist" 400)) :=
  ⟨(c6_not_found_short_circuit "ps" "/directory/get" "GET" "ghost" "ghost.mp4" none none
      (some "tok") (fun nm => .ok (query_directory_info exG 10 nm))
      (fun nm => .ok (query_video_info exG 10 nm))
      (fun _ => .ok { decision := "ALLOW", determiningPolicies := [{ policyId := "p1" }] })
      (by decide)).1 (by decide) (by decide),
   (c6_not_found_short_circuit "ps" "/video/get" "GET" "ghost" "ghost.mp4" none none
      (some "tok") (fun nm => .ok (query_directory_info exG 10 nm))
      (fun nm => .ok (query_video_info exG 10 nm))
      (fun _ => .ok { decision := "ALLOW", determiningPolicies := [{ policyId := "p1" }] })
      (by decide)).2.1 (by decide) (by decide)⟩

/-! ### C10: directory precedence when both names are supplied -/

/-- Claim C10 (amended): when the body supplies both names, the
`videoName` is entirely ignored — the handler's result is unchanged by
removing it, and is independent of the video lookup, so no video
existence check, resolution, or decision request occurs; the directory
alone is validated and resolved. Under a `ViewDirectory` action the
directory is authorized, but under a `ViewVideo` action the `video`
local is never bound, so the dispatch fails with a `NameError` that is
returned as a 401 access-denied response, and nothing is authorized. -/
theorem c10_directory_precedence_amended (psSet : Bool) (psid res mth dn vnm tok : String)
    (auth : Bool) (vn : Option String) (q : Option RequestParams) (idt : Option String)
    (d : Directory) (p : PolicyRef)
    (dl : String → Except PyErr (Option Directory))
    (vl vl' : String → Except PyErr (Option Video))
    (avp : AVPArgs → Except String AVPResponse)
    (hdn : truthy (some dn) = true) :
    (handler psSet psid
        { resource := res, httpMethod := mth, authOk := auth,
          body := some { directoryName := some dn, videoName := vn },
          queryStringParameters := q, idToken := idt }
        dl vl avp
      = handler psSet psid
        { resource := res, httpMethod := mth, authOk := auth,
          body := some { directoryName := some dn, videoName := none },
          queryStringParameters := q, idToken := idt }
        dl vl' avp)
    ∧ (truthy (some tok) = true → dl dn = .ok (some d) →
      handler true psid
        { resource := "/video/get", httpMethod := "GET", authOk := true,
          body := some { directoryName := some dn, videoName := some vnm },
          queryStringParameters := q, idToken := some tok }
        dl vl avp
      = .ok (some (format_response
          "Access denied -- permissions check failed - name 'video' is not defined" 401)))
    ∧ (truthy (some tok) = true → dl dn = .ok (some d) →
      avp = (fun _ => .ok { decision := "ALLOW", determiningPolicies := [p] }) →
      handler true psid
        { resource := "/directory/get", httpMethod := "GET", authOk := true,
          body := some { directoryName := some dn, videoName := some vnm },
          queryStringParameters := q, idToken := some tok }
        dl vl avp
      = .ok (some (format_response
          ("Access allowed -- determining policy id is " ++ p.policyId) 200))) := by
  refine ⟨?_, ?_, ?_⟩
  · simp [handler, extractNames, hdn, pure, Except.pure, Bind.bind, Except.bind]
  · intro htok hdl
    simp [handler, extractNames, hdn, htok, hdl, ACTIONS, pure, Except.pure, Bind.bind,
      Except.bind]
  · intro htok hdl havp
    subst havp
    simp [handler, extractNames, hdn, htok, hdl, ACTIONS, pure, Except.pure, Bind.bind,
      Except.bind, permissions_check_token_directory, build_directory_args,
      directory_entities, attribute_value_entity_set, attribute_value, entity_set,
      attribute_value_list_entity_map, Except.map]

set_option maxRecDepth 8000 in
/-- Witness for C10: the amended theorem applied over the sample
graph's lookups with both names supplied. -/
theorem c10_directory_precedence_amended_witness :
    (handler true "ps"
        { resource := "/directory/get", httpMethod := "GET", authOk := true,
          body := some { directoryName := some "leaf", videoName := some "clip.mp4" },
          queryStringParameters := none, idToken := some "tok" }
        (fun nm => .ok (query_directory_info exG 10 nm))
        (fun nm => .ok (query_video_info exG 10 nm))
        (fun _ => .ok { decision := "ALLOW", determiningPolicies := [{ policyId := "p1" }] })
      = handler true "ps"
        { resource := "/directory/get", httpMethod := "GET", authOk := true,
          body := some { directoryName := some "leaf", videoName := none },
          queryStringParameters := none, idToken := some "tok" }
        (fun nm => .ok (query_directory_info exG 10 nm))
        (fun _ => .error (.otherError "video store unreachable"))
        (fun _ => .ok { decision := "ALLOW", determiningPolicies := [{ policyId := "p1" }] }))
    ∧ (handler true "ps"
        { resource := "/video/get", httpMethod := "GET", authOk := true,
          body := some { directoryName := some "leaf", videoName := some "clip.mp4" },
          queryStringParameters := none, idToken := some "tok" }
        (fun nm => .ok (query_directory_info exG 10 nm))
        (fun nm => .ok (query_video_info exG 10 nm))
        (fun _ => .ok { decision := "ALLOW", determiningPolicies := [{ policyId := "p1" }] })
      = .ok (some (format_response
          "Access denied -- permissions check failed - name 'video' is not defined" 401))) := by
  have h1 := c10_directory_precedence_amended true "ps" "/directory/get" "GET" "leaf"
    "clip.mp4" "tok" true (some "clip.mp4") none (some "tok")
    { directory_id := "d3", directory_name := "leaf", owner_id := ["u1", "u3"],
      owner_name := ["alice", "carol"], parents_id := ["d2", "d1"], isPublic := false }
    { policyId := "p1" }
    (fun nm => .ok (query_directory_info exG 10 nm))
    (fun nm => .ok (query_video_info exG 10 nm))
    (fun _ => .error (.otherError "video store unreachable"))
    (fun _ => .ok { decision := "ALLOW", determiningPolicies := [{ policyId := "p1" }] })
    (by decide)
  have h2 := c10_directory_precedence_amended true "ps" "/video/get" "GET" "leaf"
    "clip.mp4" "tok" true (some "clip.mp4") none (some "tok")
    { directory_id := "d3", directory_name := "leaf", owner_id := ["u1", "u3"],
      owner_name := ["alice", "carol"], parents_id := ["d2", "d1"], isPublic := false }
    { policyId := "p1" }
    (fun nm => .ok (query_directory_info exG 10 nm))
    (fun nm => .ok (query_video_info exG 10 nm))
    (fun nm => .ok (query_video_info exG 10 nm))
    (fun _ => .ok { decision := "ALLOW", determiningPolicies := [{ policyId := "p1" }] })
    (by decide)
  exact ⟨h1.1, h2.2.1 (by decide) (by decide)⟩

set_option maxRecDepth 8000 in
/-- Counterexample to C10 as stated: a `/video/get` request supplying
both names, over a graph where the directory exists and an engine that
would allow anything, authorizes nothing at all — the handler returns
the `NameError` 401 response rather than authorizing the directory. -/
theorem c10_directory_precedence_counterexample :
    handler true "ps"
      { resource := "/video/get", httpMethod := "GET", authOk := true,
        body := some { directoryName := some "leaf", videoName := some "clip.mp4" },
        queryStringParameters := none, idToken := some "tok" }
      (fun nm => .ok (query_directory_info exG 10 nm))
      (fun nm => .ok (query_video_info exG 10 nm))
      (fun _ => .ok { decision := "ALLOW", determiningPolicies := [{ policyId := "p1" }] })
    = .ok (some (format_response
        "Access denied -- permissions check failed - name 'video' is not defined" 401))
    ∧ (some (format_response
        "Access denied -- permissions check failed - name 'video' is not defined" 401)
        : Option Response)
      ≠ some (format_response "Access allowed -- determining policy id is p1" 200) := by
  decide

end AvpRebac
